import Mathlib

/-!
Shallow embedding of `src/main.rs` (touchpad-remap): a program that remaps
KEY_F / KEY_D to mouse buttons while a shared boolean flag (touchpad_active)
is raised.  Three components: the Motion Watcher (`monitor_libinput`), the
Release Watcher (`monitor_evdev_release`) and the Remap Engine
(`monitor_keyboard`), plus virtual-device construction
(`create_virtual_keyboard` and the fixed virtual mouse).
-/

/-- Linux input event type EV_KEY (`EventType::KEY`). -/
def EV_KEY : Nat := 1

/-- Linux key code of `Key::KEY_F`. -/
def KEY_F : Nat := 33

/-- Linux key code of `Key::KEY_D`. -/
def KEY_D : Nat := 32

/-- Linux key code of `Key::BTN_LEFT`. -/
def BTN_LEFT : Nat := 272

/-- Linux key code of `Key::BTN_RIGHT`. -/
def BTN_RIGHT : Nat := 273

/-- Linux key code of `Key::BTN_MIDDLE`. -/
def BTN_MIDDLE : Nat := 274

/-- Linux key code of `Key::BTN_TOOL_FINGER`. -/
def BTN_TOOL_FINGER : Nat := 325

/-- Linux relative axis code REL_X. -/
def REL_X : Nat := 0

/-- Linux relative axis code REL_Y. -/
def REL_Y : Nat := 1

/-- Linux relative axis code REL_WHEEL. -/
def REL_WHEEL : Nat := 8

/-- `const DEBOUNCE_MS: u64 = 0;` from main.rs. -/
def DEBOUNCE_MS : Nat := 0

/-- `const VIRTUAL_KEYBOARD_NAME` from main.rs. -/
def VIRTUAL_KEYBOARD_NAME : String := "my-virtual-keyboard"

/-- A raw input event: `(type, code, value)` as in evdev's `InputEvent`. -/
structure InputEvent where
  eventType : Nat
  code : Nat
  value : Int
  deriving DecidableEq, Repr

/-- The two virtual output devices of the Remap Engine. -/
inductive VDevice where
  | mouse
  | keyboard
  deriving DecidableEq, Repr

/-- `Arc::new(AtomicBool::new(false))` in `main` (line 25): the shared flag
starts out `false`. -/
def initialFlag : Bool := false

/-- Character-list prefix test (used to embed Rust's `str::contains`). -/
def leadsWith : List Char → List Char → Bool
  | [], _ => true
  | _ :: _, [] => false
  | a :: as, b :: bs => a == b && leadsWith as bs

/-- Character-list substring test (used to embed Rust's `str::contains`). -/
def hasSub (pat : List Char) : List Char → Bool
  | [] => leadsWith pat []
  | b :: bs => leadsWith pat (b :: bs) || hasSub pat bs

/-- Rust's `str::contains` on strings: substring containment. -/
def strContains (s pat : String) : Bool :=
  hasSub pat.toList s.toList

/-- Rust's `str::trim` on a character list: drop leading and trailing
whitespace. -/
def rustTrim (l : List Char) : List Char :=
  ((l.dropWhile Char.isWhitespace).reverse.dropWhile Char.isWhitespace).reverse

/-- A line that the Motion Watcher treats as a motion marker: after trimming
it is non-empty and contains the `POINTER_MOTION` substring (the two guards
of the loop body of `monitor_libinput`, lines 62-66). -/
def isMotionLine (line : String) : Bool :=
  !(rustTrim line.toList).isEmpty && hasSub "POINTER_MOTION".toList (rustTrim line.toList)

/-- Observable outcome of one Motion Watcher loop iteration: the flag value
after the iteration, the list of atomic stores performed, and the diagnostic
lines printed. -/
structure MotionOut where
  newFlag : Bool
  writes : List Bool
  diags : List String
  deriving DecidableEq, Repr

/-- One iteration of the `for line in reader.lines()` loop body of
`monitor_libinput` (lines 59-71), for a line that decoded successfully:
skip empty lines; on a `POINTER_MOTION` line, if the flag currently reads
`false`, store `true` and print the activation notice. -/
def motionStep (flag : Bool) (line : String) : MotionOut :=
  let trimmed := rustTrim line.toList
  if trimmed.isEmpty then
    { newFlag := flag, writes := [], diags := [] }
  else if hasSub "POINTER_MOTION".toList trimmed then
    if !flag then
      { newFlag := true, writes := [true],
        diags := ["✓ POINTER_MOTION detected - mode ACTIVE"] }
    else
      { newFlag := flag, writes := [], diags := [] }
  else
    { newFlag := flag, writes := [], diags := [] }

/-- Observable outcome of the whole `monitor_libinput` line loop: final flag,
stores, diagnostics, and how many times the loop spawned an external process
(it never does; the single spawn happens before the loop). -/
structure MotionRun where
  flag : Bool
  writes : List Bool
  diags : List String
  spawnCount : Nat
  deriving DecidableEq, Repr

/-- The `for line in reader.lines()` loop of `monitor_libinput`
(lines 58-74) over a finite stream of line-read results: `line?` propagates
a decode error as the function's terminal `Err`; when the stream ends the
loop falls through to `Ok(())`.  The loop spawns no process. -/
def monitorLines (flag : Bool) : List (Except String String) → Except String MotionRun
  | [] => Except.ok { flag := flag, writes := [], diags := [], spawnCount := 0 }
  | Except.error e :: _ => Except.error e
  | Except.ok l :: rest =>
    let m := motionStep flag l
    match monitorLines m.newFlag rest with
    | Except.error e => Except.error e
    | Except.ok r =>
      Except.ok { flag := r.flag, writes := m.writes ++ r.writes,
                  diags := m.diags ++ r.diags, spawnCount := r.spawnCount }

/-- Does a line-read result carry a successfully decoded line? -/
def lineOk : Except String String → Bool
  | Except.ok _ => true
  | Except.error _ => false

/-- Observable outcome of one Release Watcher event: flag value after the
event, atomic stores, diagnostics, sleeps performed (durations in ms), and
events forwarded to any device (the component never forwards anything). -/
structure ReleaseOut where
  newFlag : Bool
  writes : List Bool
  diags : List String
  sleeps : List Nat
  emissions : List (VDevice × InputEvent)
  deriving DecidableEq, Repr

/-- The diagnostic printed before the debounce sleep in
`monitor_evdev_release` (line 91). -/
def waitDiag (debounce : Nat) : String :=
  "⏱  BTN_TOOL_FINGER released - waiting " ++ toString debounce ++ "ms"

/-- One iteration of the per-event loop body of `monitor_evdev_release`
(lines 86-99), with the debounce constant as a parameter: on a
`BTN_TOOL_FINGER` key event with value 0 while the flag reads `true`,
optionally print-and-sleep for the debounce duration, then store `false` and
print the deactivation notice; every other event does nothing. -/
def releaseStep (debounce : Nat) (flag : Bool) (e : InputEvent) : ReleaseOut :=
  if e.eventType = EV_KEY ∧ e.code = BTN_TOOL_FINGER then
    if e.value = 0 then
      if flag then
        if 0 < debounce then
          { newFlag := false, writes := [false],
            diags := [ waitDiag debounce, "✗ Mode DEACTIVATED"],
            sleeps := [debounce], emissions := [] }
        else
          { newFlag := false, writes := [false],
            diags := ["✗ Mode DEACTIVATED"], sleeps := [], emissions := [] }
      else
        { newFlag := flag, writes := [], diags := [], sleeps := [], emissions := [] }
    else
      { newFlag := flag, writes := [], diags := [], sleeps := [], emissions := [] }
  else
    { newFlag := flag, writes := [], diags := [], sleeps := [], emissions := [] }

/-- The RemapTable of the spec: `KEY_F` maps to the left button and `KEY_D`
to the right button (the two match arms of `monitor_keyboard`,
lines 177 and 188). -/
def remapTable (code : Nat) : Option Nat :=
  if code = KEY_F then some BTN_LEFT
  else if code = KEY_D then some BTN_RIGHT
  else none

/-- Observable outcome of one Remap Engine event: emissions on the two
virtual devices, diagnostics, and atomic stores to the shared flag (the
engine performs none: it only loads the flag). -/
structure KbdStepOut where
  emissions : List (VDevice × InputEvent)
  diags : List String
  writes : List Bool
  deriving DecidableEq, Repr

/-- One iteration of the per-event loop body of `monitor_keyboard`
(lines 171-205).  `is_active` is the value returned by the single
`touchpad_active.load` performed for this event.  If the event is a key
event, the flag read `true` and the key is KEY_F or KEY_D, emit the mapped
button on the virtual mouse with the same value (printing a diagnostic on
value 1) and mark the event handled; an unhandled event is forwarded
verbatim to the virtual keyboard. -/
def keyboardStep (is_active : Bool) (event : InputEvent) : KbdStepOut :=
  let step : Bool × List (VDevice × InputEvent) × List String :=
    if event.eventType = EV_KEY ∧ is_active = true then
      if event.code = KEY_F then
        (true, [(VDevice.mouse, InputEvent.mk EV_KEY BTN_LEFT event.value)],
          if event.value = 1 then ["F → LEFT CLICK"] else [])
      else if event.code = KEY_D then
        (true, [(VDevice.mouse, InputEvent.mk EV_KEY BTN_RIGHT event.value)],
          if event.value = 1 then ["D → RIGHT CLICK"] else [])
      else (false, [], [])
    else (false, [], [])
  { emissions := if step.1 then step.2.1 else step.2.1 ++ [(VDevice.keyboard, event)],
    diags := step.2.2,
    writes := [] }

/-- The `for event in events` loop of `monitor_keyboard` starting at load
index `n`: each iteration performs one fresh load of the shared flag
(modelled by the oracle `flagAt`, indexed by the load's position). -/
def processFrom (flagAt : Nat → Bool) (n : Nat) : List InputEvent → List KbdStepOut
  | [] => []
  | e :: rest => keyboardStep (flagAt n) e :: processFrom flagAt (n + 1) rest

/-- Processing of one fetched batch by the Remap Engine: the events in
delivery order, the `i`-th event using the `i`-th flag load. -/
def processBatch (flagAt : Nat → Bool) (events : List InputEvent) : List KbdStepOut :=
  processFrom flagAt 0 events

/-- Capability sets reported by a physical device, as in evdev: each of
`supported_keys`, `supported_relative_axes`, `supported_switches` returns
`None` when the device does not advertise that event type at all. -/
structure DeviceCaps where
  supported_keys : Option (Finset Nat)
  supported_relative_axes : Option (Finset Nat)
  supported_switches : Option (Finset Nat)

/-- The capability set a `DeviceCaps` field reports: the set itself, or the
empty set when the device does not advertise the event type. -/
def capSet (o : Option (Finset Nat)) : Finset Nat :=
  o.getD ∅

/-- State of a `VirtualDeviceBuilder` / the resulting virtual device: its
name and the advertised key, relative-axis and switch sets. -/
structure VirtualDeviceSpec where
  name : String
  keys : Finset Nat
  relAxes : Finset Nat
  switches : Finset Nat
  deriving DecidableEq

/-- `VirtualDeviceBuilder::new().name(name)`: a builder advertising nothing. -/
def newBuilder (name : String) : VirtualDeviceSpec :=
  { name := name, keys := ∅, relAxes := ∅, switches := ∅ }

/-- `builder.with_keys(ks)`: enables the given keys on the builder. -/
def with_keys (b : VirtualDeviceSpec) (ks : Finset Nat) : VirtualDeviceSpec :=
  { b with keys := b.keys ∪ ks }

/-- `builder.with_relative_axes(as)`: enables the given relative axes. -/
def with_relative_axes (b : VirtualDeviceSpec) (axs : Finset Nat) : VirtualDeviceSpec :=
  { b with relAxes := b.relAxes ∪ axs }

/-- `builder.with_switches(ss)`: enables the given switches. -/
def with_switches (b : VirtualDeviceSpec) (ss : Finset Nat) : VirtualDeviceSpec :=
  { b with switches := b.switches ∪ ss }

/-- `create_virtual_keyboard` (lines 105-123): builds a virtual device named
`name` and copies onto it each capability set the physical keyboard reports
(each `if let Some(...)` guard skips an absent capability). -/
def create_virtual_keyboard (keyboard : DeviceCaps) (name : String) : VirtualDeviceSpec :=
  let b0 := newBuilder name
  let b1 := match keyboard.supported_keys with
    | some ks => with_keys b0 ks
    | none => b0
  let b2 := match keyboard.supported_relative_axes with
    | some axs => with_relative_axes b1 axs
    | none => b1
  let b3 := match keyboard.supported_switches with
    | some ss => with_switches b2 ss
    | none => b2
  b3

/-- The key set inserted into the virtual mouse's `AttributeSet`
(lines 135-138): BTN_LEFT, BTN_RIGHT, BTN_MIDDLE. -/
def mouse_keys : Finset Nat :=
  insert BTN_MIDDLE (insert BTN_RIGHT (insert BTN_LEFT ∅))

/-- The relative-axis set inserted into the virtual mouse's `AttributeSet`
(lines 140-143): REL_X, REL_Y, REL_WHEEL. -/
def mouse_axes : Finset Nat :=
  insert REL_WHEEL (insert REL_Y (insert REL_X ∅))

/-- The virtual mouse built in `monitor_keyboard` (lines 145-151): a fixed
device, constructed from the two literal attribute sets and no physical
device. -/
def virtual_mouse : VirtualDeviceSpec :=
  with_relative_axes (with_keys (newBuilder "rust-virtual-mouse") mouse_keys) mouse_axes

/-- `mouse.emit(...)` / `virtual_kbd.emit(...)` attempted for each pending
emission in order; the first failing emit propagates its error (`?`). -/
def emitEach (emitRes : VDevice → InputEvent → Except String Unit) :
    List (VDevice × InputEvent) → Except String Unit
  | [] => Except.ok ()
  | (d, ev) :: rest =>
    match emitRes d ev with
    | Except.error e => Except.error e
    | Except.ok _ => emitEach emitRes rest

/-- The per-event inner loop of `monitor_keyboard` with fallible emits:
processes the events of one batch in order starting at load index `n`,
returning the next load index and the emissions performed, or the first
emit error. -/
def runEvents (emitRes : VDevice → InputEvent → Except String Unit)
    (flagAt : Nat → Bool) (n : Nat) :
    List InputEvent → Except String (Nat × List (VDevice × InputEvent))
  | [] => Except.ok (n, [])
  | ev :: rest =>
    let out := keyboardStep (flagAt n) ev
    match emitEach emitRes out.emissions with
    | Except.error e => Except.error e
    | Except.ok _ =>
      match runEvents emitRes flagAt (n + 1) rest with
      | Except.error e => Except.error e
      | Except.ok (m, ems) => Except.ok (m, out.emissions ++ ems)

/-- The `loop` of `monitor_keyboard` (lines 166-207) over a finite list of
`fetch_events` results: a failed fetch propagates (`?`), a successful batch
is processed event by event. -/
def runBatches (emitRes : VDevice → InputEvent → Except String Unit)
    (flagAt : Nat → Bool) (n : Nat) :
    List (Except String (List InputEvent)) → Except String (List (VDevice × InputEvent))
  | [] => Except.ok []
  | Except.error e :: _ => Except.error e
  | Except.ok evs :: rest =>
    match runEvents emitRes flagAt n evs with
    | Except.error e => Except.error e
    | Except.ok (m, ems) =>
      match runBatches emitRes flagAt m rest with
      | Except.error e => Except.error e
      | Except.ok ems2 => Except.ok (ems ++ ems2)

/-- `monitor_keyboard` (lines 126-207) with its fallible collaborator calls
made explicit: `Device::open` (`?`), `keyboard.grab()` (`?`), the virtual
mouse build (`?`), the `create_virtual_keyboard` call (`?`), then the event
loop.  Each earlier failure propagates before any later step runs. -/
def monitor_keyboard_run (openRes grabRes mouseBuildRes kbdBuildRes : Except String Unit)
    (emitRes : VDevice → InputEvent → Except String Unit) (flagAt : Nat → Bool)
    (fetches : List (Except String (List InputEvent))) :
    Except String (List (VDevice × InputEvent)) :=
  match openRes with
  | Except.error e => Except.error e
  | Except.ok _ =>
    match grabRes with
    | Except.error e => Except.error e
    | Except.ok _ =>
      match mouseBuildRes with
      | Except.error e => Except.error e
      | Except.ok _ =>
        match kbdBuildRes with
        | Except.error e => Except.error e
        | Except.ok _ => runBatches emitRes flagAt 0 fetches

/-- Forgets a run's payload, keeping only success or error. -/
def toUnitRes {α : Type} (r : Except String α) : Except String Unit :=
  match r with
  | Except.error e => Except.error e
  | Except.ok _ => Except.ok ()

/-- `main` (lines 18-39): the two watcher tasks are spawned and their results
never awaited; only the Remap Engine task's result is awaited and unwrapped
with `?`, becoming the process's result. -/
def mainRun (motionRes : Except String MotionRun) (releaseRes : Except String Unit)
    (kbdRes : Except String Unit) : Except String Unit :=
  match kbdRes with
  | Except.error e => Except.error e
  | Except.ok _ => Except.ok ()

/-- A Rust `fn main() -> anyhow::Result<()>` exits with status 0 on `Ok` and
a non-zero status on `Err`. -/
def processExit (r : Except String Unit) : Nat :=
  match r with
  | Except.ok _ => 0
  | Except.error _ => 1

theorem keyboardStep_emissions_length (a : Bool) (e : InputEvent) :
    (keyboardStep a e).emissions.length = 1 := by
  by_cases h1 : e.eventType = EV_KEY ∧ a = true
  · by_cases h2 : e.code = KEY_F
    · simp [keyboardStep, h1, h2]
    · by_cases h3 : e.code = KEY_D
      · simp [keyboardStep, h1, h2, h3, KEY_F, KEY_D]
      · simp [keyboardStep, h1, h2, h3]
  · simp [keyboardStep, h1]

theorem remapTable_eq_some {k b : Nat} (h : remapTable k = some b) :
    (k = KEY_F ∧ b = BTN_LEFT) ∨ (k = KEY_D ∧ b = BTN_RIGHT) := by
  by_cases h1 : k = KEY_F
  · left
    refine ⟨h1, ?_⟩
    simp [remapTable, h1] at h
    exact h.symm
  · by_cases h2 : k = KEY_D
    · right
      refine ⟨h2, ?_⟩
      simp [remapTable, h1, h2, KEY_D, KEY_F] at h
      exact h.symm
    · simp [remapTable, h1, h2] at h

theorem processFrom_length (flagAt : Nat → Bool) :
    ∀ (l : List InputEvent) (n : Nat), (processFrom flagAt n l).length = l.length := by
  intro l
  induction l with
  | nil => intro n; rfl
  | cons e rest ih => intro n; simp [processFrom, ih]

theorem processFrom_getElem? (flagAt : Nat → Bool) :
    ∀ (l : List InputEvent) (n i : Nat),
      (processFrom flagAt n l)[i]? =
        (l[i]?).map (fun e => keyboardStep (flagAt (n + i)) e) := by
  intro l
  induction l with
  | nil => intro n i; simp [processFrom]
  | cons e rest ih =>
    intro n i
    cases i with
    | zero => simp [processFrom]
    | succ j =>
      have harith : n + 1 + j = n + (j + 1) := by omega
      simp [processFrom, ih (n + 1) j, harith]

/-- C1: for every keyboard event processed by the Remap Engine with the flag
value loaded for that event, exactly one emission occurs; it is a
mouse-button event carrying the mapped button identifier with the original's
value iff the event's category is key, the key is in the RemapTable and the
flag read is true, and in every other case the event goes unmodified to the
virtual keyboard (never both). -/
theorem keyboardStep_routing_invariant (a : Bool) (e : InputEvent) :
    (keyboardStep a e).emissions.length = 1 ∧
    (∀ b : Nat,
      (e.eventType = EV_KEY ∧ a = true ∧ remapTable e.code = some b) ↔
        (keyboardStep a e).emissions = [(VDevice.mouse, InputEvent.mk EV_KEY b e.value)]) ∧
    (¬(e.eventType = EV_KEY ∧ a = true ∧ (remapTable e.code).isSome = true) ↔
      (keyboardStep a e).emissions = [(VDevice.keyboard, e)]) := by
  refine ⟨keyboardStep_emissions_length a e, ?_, ?_⟩
  · intro b
    by_cases h1 : e.eventType = EV_KEY ∧ a = true
    · by_cases h2 : e.code = KEY_F
      · simp [keyboardStep, remapTable, h1, h2, InputEvent.mk.injEq]
      · by_cases h3 : e.code = KEY_D
        · simp [keyboardStep, remapTable, h1, h2, h3, KEY_F, KEY_D, InputEvent.mk.injEq]
        · simp [keyboardStep, remapTable, h1, h2, h3]
    · simp only [keyboardStep, if_neg h1]
      constructor
      · intro hc
        exact absurd ⟨hc.1, hc.2.1⟩ h1
      · intro hc
        simp at hc
  · by_cases h1 : e.eventType = EV_KEY ∧ a = true
    · by_cases h2 : e.code = KEY_F
      · simp [keyboardStep, remapTable, h1, h2]
      · by_cases h3 : e.code = KEY_D
        · simp [keyboardStep, remapTable, h1, h2, h3, KEY_F, KEY_D]
        · simp [keyboardStep, remapTable, h1, h2, h3]
    · simp only [keyboardStep, if_neg h1]
      simp
      intro hT hA
      exact absurd ⟨hT, hA⟩ h1

/-- Closed instance of the routing invariant: a KEY_F press while the flag
reads true is emitted as a left-button press on the virtual mouse. -/
theorem keyboardStep_routing_invariant_witness :
    (keyboardStep true (InputEvent.mk 1 33 1)).emissions =
      [(VDevice.mouse, InputEvent.mk EV_KEY BTN_LEFT 1)] :=
  ((keyboardStep_routing_invariant true (InputEvent.mk 1 33 1)).2.1 BTN_LEFT).mp
    ⟨rfl, rfl, by decide⟩

/-- C2: a motion-marker line while the flag reads false sets it to true and
prints exactly one transition notice; a motion-marker line while the flag is
already true performs no store and prints nothing; a line that is not a
motion marker performs no store and prints nothing regardless of the flag
(the flag write and diagnostic happen only on a marker line while the flag
is false); any event processed by the Release Watcher while the flag is
already false performs no store and prints nothing. -/
theorem idempotent_activation_deactivation (f : Bool) (line : String) :
    (isMotionLine line = true →
      (f = false → motionStep f line =
        { newFlag := true, writes := [true],
          diags := ["✓ POINTER_MOTION detected - mode ACTIVE"] }) ∧
      (f = true → motionStep f line = { newFlag := true, writes := [], diags := [] })) ∧
    (isMotionLine line = false →
      motionStep f line = { newFlag := f, writes := [], diags := [] }) ∧
    (∀ (d : Nat) (e : InputEvent),
      releaseStep d false e =
        { newFlag := false, writes := [], diags := [], sleeps := [], emissions := [] }) := by
  refine ⟨?_, ?_, ?_⟩
  · intro hm
    simp only [isMotionLine, Bool.and_eq_true, Bool.not_eq_true'] at hm
    obtain ⟨h1, h2⟩ := hm
    constructor
    · intro hf
      subst hf
      simp only [motionStep]
      split_ifs <;> simp_all
    · intro hf
      subst hf
      simp only [motionStep]
      split_ifs <;> simp_all
  · intro hm
    by_cases h1 : (rustTrim line.toList).isEmpty = true
    · simp only [motionStep]
      split_ifs <;> simp_all
    · by_cases h2 : hasSub "POINTER_MOTION".toList (rustTrim line.toList) = true
      · exfalso
        have h1' : (rustTrim line.toList).isEmpty = false := by
          simpa using h1
        have hmt : isMotionLine line = true := by
          simp only [isMotionLine, Bool.and_eq_true, Bool.not_eq_true']
          exact ⟨h1', h2⟩
        rw [hm] at hmt
        exact Bool.false_ne_true hmt
      · have h2' : hasSub "POINTER_MOTION".toList (rustTrim line.toList) = false := by
          simpa using h2
        simp only [motionStep]
        split_ifs <;> simp_all
  · intro d e
    unfold releaseStep
    by_cases h1 : e.eventType = EV_KEY ∧ e.code = BTN_TOOL_FINGER
    · by_cases h2 : e.value = 0
      · simp [h1, h2]
      · simp [h1, h2]
    · simp [h1]

/-- Closed instance of C2: activation fires once on a marker line, repeats
are no-ops, a non-marker line is a no-op, and a finger release with the flag
down is a no-op. -/
theorem idempotent_activation_deactivation_witness :
    motionStep false " POINTER_MOTION" =
      { newFlag := true, writes := [true],
        diags := ["✓ POINTER_MOTION detected - mode ACTIVE"] } ∧
    motionStep true " POINTER_MOTION" = { newFlag := true, writes := [], diags := [] } ∧
    motionStep false " event4  POINTER_BUTTON +2.1s" =
      { newFlag := false, writes := [], diags := [] } ∧
    releaseStep 0 false (InputEvent.mk 1 325 0) =
      { newFlag := false, writes := [], diags := [], sleeps := [], emissions := [] } :=
  ⟨((idempotent_activation_deactivation false " POINTER_MOTION").1 (by decide)).1 rfl,
   ((idempotent_activation_deactivation true " POINTER_MOTION").1 (by decide)).2 rfl,
   (idempotent_activation_deactivation false " event4  POINTER_BUTTON +2.1s").2.1 (by decide),
   (idempotent_activation_deactivation false "x").2.2 0 (InputEvent.mk 1 325 0)⟩

/-- C3: a BTN_TOOL_FINGER key event with value 0 while the flag reads true
sleeps for the debounce duration exactly when it is positive (none when it
is 0), stores false and prints the deactivation notice; every other event
does nothing; and the Release Watcher never forwards any event anywhere. -/
theorem releaseStep_finger_release_spec (d : Nat) (f : Bool) (e : InputEvent) :
    (e.eventType = EV_KEY → e.code = BTN_TOOL_FINGER → e.value = 0 → f = true →
      releaseStep d f e =
        { newFlag := false, writes := [false],
          diags := (if 0 < d then [ waitDiag d] else []) ++ ["✗ Mode DEACTIVATED"],
          sleeps := if 0 < d then [d] else [], emissions := [] }) ∧
    (¬(e.eventType = EV_KEY ∧ e.code = BTN_TOOL_FINGER ∧ e.value = 0) →
      releaseStep d f e =
        { newFlag := f, writes := [], diags := [], sleeps := [], emissions := [] }) ∧
    (releaseStep d f e).emissions = [] := by
  refine ⟨?_, ?_, ?_⟩
  · intro hT hC hV hf
    subst hf
    by_cases hd : 0 < d
    · simp [releaseStep, hT, hC, hV, hd]
    · simp [releaseStep, hT, hC, hV, hd]
  · intro hn
    unfold releaseStep
    by_cases h1 : e.eventType = EV_KEY ∧ e.code = BTN_TOOL_FINGER
    · by_cases h2 : e.value = 0
      · exact absurd ⟨h1.1, h1.2, h2⟩ hn
      · simp [h1, h2]
    · simp [h1]
  · unfold releaseStep
    by_cases h1 : e.eventType = EV_KEY ∧ e.code = BTN_TOOL_FINGER
    · by_cases h2 : e.value = 0
      · by_cases h3 : f = true
        · by_cases hd : 0 < d
          · simp [h1, h2, h3, hd]
          · simp [h1, h2, h3, hd]
        · simp [h1, h2, h3]
      · simp [h1, h2]
    · simp [h1]

/-- Closed instance of C3: with debounce 0 a finger release while active
deactivates with no sleep; a non-release event is a no-op. -/
theorem releaseStep_finger_release_spec_witness :
    releaseStep 0 true (InputEvent.mk 1 325 0) =
      { newFlag := false, writes := [false], diags := ["✗ Mode DEACTIVATED"],
        sleeps := [], emissions := [] } ∧
    releaseStep 0 true (InputEvent.mk 2 0 5) =
      { newFlag := true, writes := [], diags := [], sleeps := [], emissions := [] } :=
  ⟨(releaseStep_finger_release_spec 0 true (InputEvent.mk 1 325 0)).1 rfl rfl rfl rfl,
   (releaseStep_finger_release_spec 0 true (InputEvent.mk 2 0 5)).2.1 (by decide)⟩

/-- C4: a batch is processed strictly in delivery order and the flag is
loaded freshly per event: the batch output has one entry per event, and its
i-th entry is exactly the processing of the i-th event under the i-th flag
load. -/
theorem processBatch_per_event_flag (flagAt : Nat → Bool) (events : List InputEvent) :
    (processBatch flagAt events).length = events.length ∧
    ∀ i : Nat,
      (processBatch flagAt events)[i]? =
        (events[i]?).map (fun e => keyboardStep (flagAt i) e) := by
  refine ⟨processFrom_length flagAt events 0, fun i => ?_⟩
  have h := processFrom_getElem? flagAt events 0 i
  simpa [processBatch] using h

/-- Closed instance of C4: in a two-event batch whose flag loads differ, the
second event is processed under the second load. -/
theorem processBatch_per_event_flag_witness :
    (processBatch (fun n => decide (n = 1)) [InputEvent.mk 1 33 1, InputEvent.mk 1 33 0])[1]? =
      some (keyboardStep true (InputEvent.mk 1 33 0)) :=
  (processBatch_per_event_flag (fun n => decide (n = 1))
    [InputEvent.mk 1 33 1, InputEvent.mk 1 33 0]).2 1

/-- C5: the shared flag is created false at process start; every store by
the Motion Watcher writes true, every store by the Release Watcher writes
false, and the Remap Engine performs no store at all. -/
theorem flag_writers_one_directional :
    initialFlag = false ∧
    (∀ (f : Bool) (line : String),
      (motionStep f line).writes = [] ∨ (motionStep f line).writes = [true]) ∧
    (∀ (d : Nat) (f : Bool) (e : InputEvent),
      (releaseStep d f e).writes = [] ∨ (releaseStep d f e).writes = [false]) ∧
    (∀ (a : Bool) (e : InputEvent), (keyboardStep a e).writes = []) := by
  refine ⟨rfl, ?_, ?_, ?_⟩
  · intro f line
    simp only [motionStep]
    split_ifs <;> simp
  · intro d f e
    unfold releaseStep
    by_cases h1 : e.eventType = EV_KEY ∧ e.code = BTN_TOOL_FINGER
    · by_cases h2 : e.value = 0
      · by_cases h3 : f
        · by_cases hd : 0 < d
          · simp [h1, h2, h3, hd]
          · simp [h1, h2, h3, hd]
        · simp [h1, h2, h3]
      · simp [h1, h2]
    · simp [h1]
  · intro a e
    rfl

/-- C6: at construction time the virtual keyboard's key, relative-axis and
switch sets each equal the corresponding capability set reported by the
physical keyboard (the empty set when the keyboard does not advertise that
event type). -/
theorem create_virtual_keyboard_caps (kb : DeviceCaps) (name : String) :
    (create_virtual_keyboard kb name).keys = capSet kb.supported_keys ∧
    (create_virtual_keyboard kb name).relAxes = capSet kb.supported_relative_axes ∧
    (create_virtual_keyboard kb name).switches = capSet kb.supported_switches := by
  rcases kb with ⟨ks, axs, ss⟩
  cases ks <;> cases axs <;> cases ss <;>
    simp [create_virtual_keyboard, newBuilder, with_keys, with_relative_axes,
      with_switches, capSet]

/-- Closed instance of C6: a keyboard reporting keys but no relative axes
and no switches yields a virtual keyboard with those keys and empty other
sets. -/
theorem create_virtual_keyboard_caps_witness :
    (create_virtual_keyboard
        { supported_keys := some {30, 33}, supported_relative_axes := none,
          supported_switches := none } VIRTUAL_KEYBOARD_NAME).keys = {30, 33} ∧
    (create_virtual_keyboard
        { supported_keys := some {30, 33}, supported_relative_axes := none,
          supported_switches := none } VIRTUAL_KEYBOARD_NAME).relAxes = ∅ :=
  ⟨(create_virtual_keyboard_caps
      { supported_keys := some {30, 33}, supported_relative_axes := none,
        supported_switches := none } VIRTUAL_KEYBOARD_NAME).1,
   (create_virtual_keyboard_caps
      { supported_keys := some {30, 33}, supported_relative_axes := none,
        supported_switches := none } VIRTUAL_KEYBOARD_NAME).2.1⟩

/-- C7 counterexample: when the line stream ends, the Motion Watcher's loop
terminates with a successful result, not with an error, contradicting the
claim that a stream that ends is reported as a fatal error. -/
theorem monitorLines_stream_end_ok :
    monitorLines initialFlag [] =
      Except.ok { flag := false, writes := [], diags := [], spawnCount := 0 } :=
  rfl

/-- C7 (amended): a line that fails to decode propagates as the component's
terminal error (past any prefix of decoded lines); a stream that ends makes
the component terminate successfully with no further effects; and the loop
never spawns (so never restarts) the external process. -/
theorem monitorLines_error_handling :
    (∀ f : Bool, monitorLines f [] =
      Except.ok { flag := f, writes := [], diags := [], spawnCount := 0 }) ∧
    (∀ (f : Bool) (pre : List (Except String String)) (e : String)
        (suf : List (Except String String)),
      pre.all lineOk = true →
      monitorLines f (pre ++ Except.error e :: suf) = Except.error e) ∧
    (∀ (f : Bool) (lines : List (Except String String)) (r : MotionRun),
      monitorLines f lines = Except.ok r → r.spawnCount = 0) := by
  refine ⟨fun f => rfl, ?_, ?_⟩
  · intro f pre
    induction pre generalizing f with
    | nil => intro e suf _; rfl
    | cons x rest ih =>
      intro e suf hall
      cases x with
      | error e' => simp [lineOk] at hall
      | ok l =>
        have hall' : rest.all lineOk = true := by
          rw [List.all_cons, Bool.and_eq_true] at hall
          exact hall.2
        have hih := ih (motionStep f l).newFlag e suf hall'
        simp only [List.cons_append, monitorLines, List.append_eq, hih]
  · intro f lines
    induction lines generalizing f with
    | nil =>
      intro r hr
      simp only [monitorLines] at hr
      cases hr
      rfl
    | cons x rest ih =>
      intro r hr
      cases x with
      | error e' => simp [monitorLines] at hr
      | ok l =>
        simp only [monitorLines] at hr
        cases hrec : monitorLines (motionStep f l).newFlag rest with
        | error e' => rw [hrec] at hr; cases hr
        | ok r' =>
          rw [hrec] at hr
          cases hr
          exact ih (motionStep f l).newFlag r' hrec

/-- Closed instance of the amended C7: a decode failure after one good line
is the loop's terminal error, and a successful run performed no spawn. -/
theorem monitorLines_error_handling_witness :
    monitorLines false [Except.ok "hello", Except.error "io error"] =
      Except.error "io error" ∧
    ({ flag := false, writes := [], diags := [], spawnCount := 0 } : MotionRun).spawnCount = 0 :=
  ⟨monitorLines_error_handling.2.1 false [Except.ok "hello"] "io error" [] (by decide),
   monitorLines_error_handling.2.2 false []
     { flag := false, writes := [], diags := [], spawnCount := 0 } rfl⟩

/-- C9: the virtual mouse's capability set is fixed: exactly the left, right
and middle buttons as keys, exactly relative X, Y and wheel as relative
axes, and no switches. -/
theorem virtual_mouse_fixed_caps :
    (∀ k : Nat, k ∈ virtual_mouse.keys ↔ (k = BTN_LEFT ∨ k = BTN_RIGHT ∨ k = BTN_MIDDLE)) ∧
    (∀ r : Nat, r ∈ virtual_mouse.relAxes ↔ (r = REL_X ∨ r = REL_Y ∨ r = REL_WHEEL)) ∧
    virtual_mouse.switches = ∅ := by
  refine ⟨fun k => ?_, fun r => ?_, rfl⟩
  · simp [virtual_mouse, with_relative_axes, with_keys, newBuilder, mouse_keys,
      Finset.mem_insert]
    tauto
  · simp [virtual_mouse, with_relative_axes, with_keys, newBuilder, mouse_axes,
      Finset.mem_insert]
    tauto

/-- Closed instance of C9: the left button is advertised by the virtual
mouse. -/
theorem virtual_mouse_fixed_caps_witness :
    BTN_LEFT ∈ virtual_mouse.keys :=
  (virtual_mouse_fixed_caps.1 BTN_LEFT).mpr (Or.inl rfl)

/-- C8: an error from any stage of the Remap Engine (device open, grab,
virtual-device build, event fetch, event emit) is the engine's result, and
`main` turns an engine error into a non-zero process exit; the two watcher
results are never consulted, so the process result is unchanged whatever
they are (it keeps running after a watcher fails). -/
theorem engine_error_propagation_main :
    (∀ (mR : Except String MotionRun) (rR : Except String Unit) (e : String),
      mainRun mR rR (Except.error e) = Except.error e ∧
      processExit (mainRun mR rR (Except.error e)) = 1) ∧
    (∀ (mR mR' : Except String MotionRun) (rR rR' : Except String Unit)
        (k : Except String Unit),
      mainRun mR rR k = mainRun mR' rR' k) ∧
    (∀ (mR : Except String MotionRun) (rR : Except String Unit),
      processExit (mainRun mR rR (Except.ok ())) = 0) ∧
    (∀ (g mb kb : Except String Unit) (em : VDevice → InputEvent → Except String Unit)
        (fa : Nat → Bool) (fs : List (Except String (List InputEvent))) (e : String),
      monitor_keyboard_run (Except.error e) g mb kb em fa fs = Except.error e) ∧
    (∀ (mb kb : Except String Unit) (em : VDevice → InputEvent → Except String Unit)
        (fa : Nat → Bool) (fs : List (Except String (List InputEvent))) (e : String),
      monitor_keyboard_run (Except.ok ()) (Except.error e) mb kb em fa fs = Except.error e) ∧
    (∀ (kb : Except String Unit) (em : VDevice → InputEvent → Except String Unit)
        (fa : Nat → Bool) (fs : List (Except String (List InputEvent))) (e : String),
      monitor_keyboard_run (Except.ok ()) (Except.ok ()) (Except.error e) kb em fa fs =
        Except.error e) ∧
    (∀ (em : VDevice → InputEvent → Except String Unit) (fa : Nat → Bool)
        (fs : List (Except String (List InputEvent))) (e : String),
      monitor_keyboard_run (Except.ok ()) (Except.ok ()) (Except.ok ()) (Except.error e)
        em fa fs = Except.error e) ∧
    (∀ (em : VDevice → InputEvent → Except String Unit) (fa : Nat → Bool)
        (fs : List (Except String (List InputEvent))) (e : String),
      monitor_keyboard_run (Except.ok ()) (Except.ok ()) (Except.ok ()) (Except.ok ())
        em fa (Except.error e :: fs) = Except.error e) ∧
    (∀ (fa : Nat → Bool) (fs : List (Except String (List InputEvent))) (e : String)
        (ev : InputEvent) (evs : List InputEvent),
      monitor_keyboard_run (Except.ok ()) (Except.ok ()) (Except.ok ()) (Except.ok ())
        (fun _ _ => Except.error e) fa (Except.ok (ev :: evs) :: fs) = Except.error e) := by
  refine ⟨fun mR rR e => ⟨rfl, rfl⟩, fun mR mR' rR rR' k => ?_, fun mR rR => rfl,
    fun g mb kb em fa fs e => rfl, fun mb kb em fa fs e => rfl,
    fun kb em fa fs e => rfl, fun em fa fs e => rfl, fun em fa fs e => rfl, ?_⟩
  · cases k <;> rfl
  · intro fa fs e ev evs
    obtain ⟨x, hx⟩ :=
      List.length_eq_one.mp (keyboardStep_emissions_length (fa 0) ev)
    simp only [monitor_keyboard_run, runBatches, runEvents, hx]
    cases x with
    | mk d iev => simp [emitEach]

/-- Closed instance of C8: a failed keyboard grab is the engine's terminal
error and makes the process exit non-zero. -/
theorem engine_error_propagation_main_witness :
    monitor_keyboard_run (Except.ok ()) (Except.error "Failed to grab keyboard")
        (Except.ok ()) (Except.ok ()) (fun _ _ => Except.ok ()) (fun _ => false) [] =
      Except.error "Failed to grab keyboard" ∧
    processExit (mainRun (Except.ok (MotionRun.mk false [] [] 0)) (Except.ok ())
        (Except.error "Failed to grab keyboard")) = 1 :=
  ⟨engine_error_propagation_main.2.2.2.2.1 (Except.ok ()) (Except.ok ())
      (fun _ _ => Except.ok ()) (fun _ => false) [] "Failed to grab keyboard",
   (engine_error_propagation_main.1 (Except.ok (MotionRun.mk false [] [] 0))
      (Except.ok ()) "Failed to grab keyboard").2⟩

/-- C10: routing of a remapped key depends only on the flag value loaded for
that event, not on the event's value or any earlier event: in one batch, a
press (value 1) of a remapped key under a false flag load goes to the
virtual keyboard while a later release/repeat (any value) of the same key
under a true flag load goes to the virtual mouse. -/
theorem remap_routing_history_independent (flagAt : Nat → Bool)
    (events : List InputEvent) (i j k b : Nat) (v : Int)
    (hk : remapTable k = some b)
    (hi : events[i]? = some (InputEvent.mk EV_KEY k 1))
    (hj : events[j]? = some (InputEvent.mk EV_KEY k v))
    (hfi : flagAt i = false) (hfj : flagAt j = true) :
    ((processBatch flagAt events)[i]?).map KbdStepOut.emissions =
      some [(VDevice.keyboard, InputEvent.mk EV_KEY k 1)] ∧
    ((processBatch flagAt events)[j]?).map KbdStepOut.emissions =
      some [(VDevice.mouse, InputEvent.mk EV_KEY b v)] := by
  have hgi := processFrom_getElem? flagAt events 0 i
  have hgj := processFrom_getElem? flagAt events 0 j
  rw [Nat.zero_add] at hgi hgj
  constructor
  · rw [processBatch, hgi, hi, hfi]
    simp only [Option.map_some, Option.map_map]
    have : keyboardStep false (InputEvent.mk EV_KEY k 1) =
        { emissions := [(VDevice.keyboard, InputEvent.mk EV_KEY k 1)],
          diags := [], writes := [] } := by
      simp [keyboardStep]
    simp [this]
  · rw [processBatch, hgj, hj, hfj]
    rcases remapTable_eq_some hk with ⟨hkF, hb⟩ | ⟨hkD, hb⟩
    · subst hkF
      subst hb
      have : keyboardStep true (InputEvent.mk EV_KEY KEY_F v) =
          { emissions := [(VDevice.mouse, InputEvent.mk EV_KEY BTN_LEFT v)],
            diags := if v = 1 then ["F → LEFT CLICK"] else [], writes := [] } := by
        simp [keyboardStep]
      simp [this]
    · subst hkD
      subst hb
      have : keyboardStep true (InputEvent.mk EV_KEY KEY_D v) =
          { emissions := [(VDevice.mouse, InputEvent.mk EV_KEY BTN_RIGHT v)],
            diags := if v = 1 then ["D → RIGHT CLICK"] else [], writes := [] } := by
        simp [keyboardStep, KEY_D, KEY_F]
      simp [this]

/-- Closed instance of C10: with the flag flipping to true between the two
events, the press of KEY_F goes to the virtual keyboard and its release goes
to the virtual mouse as a left-button release. -/
theorem remap_routing_history_independent_witness :
    ((processBatch (fun n => decide (n = 1))
        [InputEvent.mk EV_KEY KEY_F 1, InputEvent.mk EV_KEY KEY_F 0])[0]?).map
        KbdStepOut.emissions = some [(VDevice.keyboard, InputEvent.mk EV_KEY KEY_F 1)] ∧
    ((processBatch (fun n => decide (n = 1))
        [InputEvent.mk EV_KEY KEY_F 1, InputEvent.mk EV_KEY KEY_F 0])[1]?).map
        KbdStepOut.emissions = some [(VDevice.mouse, InputEvent.mk EV_KEY BTN_LEFT 0)] :=
  remap_routing_history_independent (fun n => decide (n = 1))
    [InputEvent.mk EV_KEY KEY_F 1, InputEvent.mk EV_KEY KEY_F 0]
    0 1 KEY_F BTN_LEFT 0 (by decide) rfl rfl rfl rfl
